import Mathlib

/-!
Shallow embedding of the invoice validation pipeline of
`src/backend/utils/invoice_validator.py` (class `InvoiceValidator`), together
with theorems about its behaviour.

Modelling conventions:
* Python `float` amounts are modelled as exact decimals `Dec` (an integer
  numerator over a positive power-of-ten denominator); the comparisons the
  code performs (`<`, `>`, `<=`, `% 1000 == 0`, `abs(x-y) < 0.01`) are
  translated to exact rational comparisons.
* Strings are ASCII text; `str.lower()` is the ASCII letter map, and the
  regular-expression checks of the code are spelled out as the character-class
  tests the regexes denote.
* `datetime.strptime(s, '%Y-%m-%d')` is the strict `YYYY-MM-DD` parser
  (4-digit year, 1–2 digit month in 1..12, 1–2 digit day in 1..31, then the
  day-of-month range check) raising `ValueError` messages on failure.
* `datetime.now()` is passed explicitly as a `Clock` (ordinal day number,
  time of day, current month), since the code consults the wall clock.
* Python exceptions escaping a function are modelled with `Except String`,
  carrying the exception message.
-/

namespace InvoiceChain

/-! ## Characters and strings -/

/-- ASCII lower-casing of a single character (`str.lower()` on the ASCII
letters that appear in this code base). -/
def lowerChar (c : Char) : Char :=
  match c with
  | 'A' => 'a' | 'B' => 'b' | 'C' => 'c' | 'D' => 'd' | 'E' => 'e'
  | 'F' => 'f' | 'G' => 'g' | 'H' => 'h' | 'I' => 'i' | 'J' => 'j'
  | 'K' => 'k' | 'L' => 'l' | 'M' => 'm' | 'N' => 'n' | 'O' => 'o'
  | 'P' => 'p' | 'Q' => 'q' | 'R' => 'r' | 'S' => 's' | 'T' => 't'
  | 'U' => 'u' | 'V' => 'v' | 'W' => 'w' | 'X' => 'x' | 'Y' => 'y'
  | 'Z' => 'z' | other => other

/-- Python `s.lower()`. -/
def lowerStr (s : String) : String := ⟨s.data.map lowerChar⟩

/-- Whitespace characters Python's no-argument `str.split()` splits on. -/
def isWs (c : Char) : Bool :=
  c == ' ' || c == '\t' || c == '\n' || c == '\x0d' || c == '\x0c' || c == '\x0b'

/-- Auxiliary for `splitWs`: accumulates the current word (reversed). -/
def splitWsAux : List Char → List Char → List (List Char)
  | [], acc => if acc.isEmpty then [] else [acc.reverse]
  | c :: cs, acc =>
      if isWs c then
        if acc.isEmpty then splitWsAux cs [] else acc.reverse :: splitWsAux cs []
      else splitWsAux cs (c :: acc)

/-- Python `s.split()`: split on whitespace runs, dropping empty words. -/
def splitWs (l : List Char) : List (List Char) := splitWsAux l []

/-- Split a character list at every occurrence of `sep`, keeping empty parts
(the behaviour of `str.split(sep)` for a one-character separator). -/
def splitChar (sep : Char) : List Char → List (List Char)
  | [] => [[]]
  | c :: cs =>
      let r := splitChar sep cs
      if c == sep then [] :: r
      else
        match r with
        | [] => [[c]]
        | x :: xs => (c :: x) :: xs

/-- Is the first list a prefix of the second (decidable, structural)? -/
def prefixOfL : List Char → List Char → Bool
  | [], _ => true
  | _ :: _, [] => false
  | a :: as, b :: bs => a == b && prefixOfL as bs

/-- Python's substring test `needle in hay`. -/
def containsSub (hay needle : List Char) : Bool :=
  match hay with
  | [] => needle.isEmpty
  | _ :: hs => prefixOfL needle hay || containsSub hs needle

/-- Does the list contain three consecutive decimal digits
(`re.search(r'\d{3,}', s)` succeeds iff some run of ≥ 3 digits exists)? -/
def hasDigitRun3 : List Char → Bool
  | a :: b :: c :: rest =>
      (a.isDigit && b.isDigit && c.isDigit) || hasDigitRun3 (b :: c :: rest)
  | _ => false

/-! ## Exact decimal numbers (model of Python `float` amounts) -/

/-- An exact decimal `num / den`; parsers only build values with `den` a
positive power of ten. Comparisons are exact rational comparisons. -/
structure Dec where
  num : Int
  den : Nat
deriving DecidableEq, Repr

/-- Embed an integer. -/
def Dec.ofInt (n : Int) : Dec := ⟨n, 1⟩

/-- Exact `a < b`. -/
def Dec.lt (a b : Dec) : Bool := a.num * (b.den : Int) < b.num * (a.den : Int)

/-- Exact `a <= b`. -/
def Dec.le (a b : Dec) : Bool := a.num * (b.den : Int) ≤ b.num * (a.den : Int)

/-- Python `amount % 1000 == 0` on a float holding the exact value `q`:
true iff `q` is an integer multiple of 1000. -/
def Dec.multipleOf1000 (q : Dec) : Bool := q.num % (1000 * (q.den : Int)) == 0

/-- Python `abs(x - y) < 0.01` on exact values. -/
def Dec.absDiffLtCent (a b : Dec) : Bool :=
  (a.num * (b.den : Int) - b.num * (a.den : Int)).natAbs * 100 < a.den * b.den

/-- Numeric value of a list of decimal digit characters. -/
def digitsVal (l : List Char) : Nat :=
  l.foldl (fun a c => a * 10 + (c.toNat - 48)) 0

/-- All characters are decimal digits. -/
def allDigits (l : List Char) : Bool := l.all (·.isDigit)

/-- Parse an unsigned decimal literal (digits, optionally with one `.`),
the fragment of Python `float(...)` grammar this code base exercises. -/
def parseUnsigned (l : List Char) : Option Dec :=
  match splitChar '.' l with
  | [ip] =>
      if !ip.isEmpty && allDigits ip then some ⟨(digitsVal ip : Int), 1⟩ else none
  | [ip, fp] =>
      if (!ip.isEmpty || !fp.isEmpty) && allDigits ip && allDigits fp then
        some ⟨(digitsVal ip * 10 ^ fp.length + digitsVal fp : Int), 10 ^ fp.length⟩
      else none
  | _ => none

/-- Python `float(s)` on a string (decimal-literal fragment): optional sign,
then an unsigned decimal. -/
def parseFloatStr (s : String) : Option Dec :=
  match s.data with
  | '+' :: rest => parseUnsigned rest
  | '-' :: rest => (parseUnsigned rest).map (fun q => ⟨-q.num, q.den⟩)
  | l => parseUnsigned l

/-! ## Calendar (model of `datetime.strptime(_, '%Y-%m-%d')`) -/

/-- A parsed calendar date. -/
structure Date where
  year : Nat
  month : Nat
  day : Nat
deriving DecidableEq, Repr

/-- Gregorian leap year. -/
def isLeap (y : Nat) : Bool := y % 4 == 0 && (y % 100 != 0 || y % 400 == 0)

/-- Days in a month (month already known to be in 1..12). -/
def daysInMonth (y m : Nat) : Nat :=
  if m == 2 then (if isLeap y then 29 else 28)
  else if m == 4 || m == 6 || m == 9 || m == 11 then 30
  else 31

/-- Days before the start of month `m` in a non-leap year. -/
def daysBeforeMonth (m : Nat) : Nat :=
  match m with
  | 1 => 0 | 2 => 31 | 3 => 59 | 4 => 90 | 5 => 120 | 6 => 151
  | 7 => 181 | 8 => 212 | 9 => 243 | 10 => 273 | 11 => 304 | _ => 334

/-- Proleptic-Gregorian ordinal day number (`datetime.toordinal`):
0001-01-01 has ordinal 1. -/
def dateOrdinal (d : Date) : Nat :=
  let y := d.year - 1
  365 * y + y / 4 - y / 100 + y / 400 + daysBeforeMonth d.month +
    (if d.month > 2 && isLeap d.year then 1 else 0) + d.day

/-- Python `datetime.weekday()`: Monday = 0 … Sunday = 6. -/
def weekday (d : Date) : Nat := (dateOrdinal d + 6) % 7

/-- A month field accepted by strptime's `%m` (1–2 digits, value 1..12). -/
def monthField (l : List Char) : Bool :=
  allDigits l && (l.length == 1 || l.length == 2) &&
    (1 ≤ digitsVal l && digitsVal l ≤ 12)

/-- A day field accepted by strptime's `%d` (1–2 digits, value 1..31). -/
def dayField (l : List Char) : Bool :=
  allDigits l && (l.length == 1 || l.length == 2) &&
    (1 ≤ digitsVal l && digitsVal l ≤ 31)

/-- Model of `datetime.strptime(s, '%Y-%m-%d')`: on failure, the `ValueError`
message. -/
def parseDate (s : String) : Except String Date :=
  let fmtErr := "time data '" ++ s ++ "' does not match format '%Y-%m-%d'"
  match splitChar '-' s.data with
  | [ys, ms, ds] =>
      if ys.length == 4 && allDigits ys && monthField ms && dayField ds then
        let y := digitsVal ys
        let m := digitsVal ms
        let d := digitsVal ds
        if y == 0 then .error ("year 0 is out of range")
        else if d ≤ daysInMonth y m then .ok ⟨y, m, d⟩
        else .error ("day is out of range for month")
      else .error fmtErr
  | _ => .error fmtErr

/-- The wall clock at validation time: today's ordinal, the time of day as a
fraction of a day, and the current month (`datetime.now().month`). -/
structure Clock where
  ord : Nat
  tod : Dec
  month : Nat
deriving Repr

/-- Value of `datetime.now()` as an exact day count (ordinal plus time of day). -/
def Clock.nowVal (c : Clock) : Dec :=
  ⟨(c.ord : Int) * (c.tod.den : Int) + c.tod.num, c.tod.den⟩

/-- Comparison `invoice_date > datetime.now()` (the invoice date has time 00:00). -/
def dateAfterNow (d : Date) (c : Clock) : Bool :=
  Dec.lt c.nowVal ⟨(dateOrdinal d : Int), 1⟩

/-- Comparison `invoice_date < datetime.now() - timedelta(days=365)`. -/
def dateTooOld (d : Date) (c : Clock) : Bool :=
  Dec.lt ⟨(dateOrdinal d : Int), 1⟩
    ⟨c.nowVal.num - 365 * (c.nowVal.den : Int), c.nowVal.den⟩

/-! ## Money formatting (Python `f"{x:,.2f}"`) -/

/-- Insert a comma after every third character of a reversed digit list. -/
def commaRev : List Char → Nat → List Char
  | [], _ => []
  | c :: cs, n => if n == 3 then ',' :: c :: commaRev cs 1 else c :: commaRev cs (n + 1)

/-- Group the decimal digits of a natural number with thousands commas. -/
def groupThousands (n : Nat) : String :=
  ⟨(commaRev (Nat.repr n).data.reverse 0).reverse⟩

/-- Two-digit zero-padded rendering of `n < 100`. -/
def pad2 (n : Nat) : String := if n < 10 then ("0") ++ Nat.repr n else Nat.repr n

/-- Round `num / den` (both ≥ 0) times 100 to the nearest integer,
ties to even (the rounding `format(x, ',.2f')` applies). -/
def centsHalfEven (num den : Nat) : Nat :=
  let t := 100 * num
  let q := t / den
  let r := t % den
  if 2 * r < den then q
  else if 2 * r > den then q + 1
  else if q % 2 == 0 then q else q + 1

/-- Python `f"{q:,.2f}"`: thousands-separated, two decimal places. -/
def formatMoney (q : Dec) : String :=
  if q.num < 0 then
    let c := centsHalfEven q.num.natAbs q.den
    ("-") ++ groupThousands (c / 100) ++ "." ++ pad2 (c % 100)
  else
    let c := centsHalfEven q.num.natAbs q.den
    groupThousands (c / 100) ++ "." ++ pad2 (c % 100)

/-! ## Data model -/

/-- The value found under the `amount` key of the invoice dict. The code
treats a missing key, a string value and a numeric value differently
(`invoice_data.get('amount')` vs `float(invoice_data.get('amount', 0))`),
so the distinction is kept. -/
inductive Amt where
  | missing
  | str (s : String)
  | num (q : Dec)
deriving DecidableEq, Repr

/-- Python truthiness of the amount value (`not invoice_data.get('amount')`). -/
def Amt.truthy : Amt → Bool
  | .missing => false
  | .str s => !s.data.isEmpty
  | .num q => q.num != 0

/-- Python `float(invoice_data.get('amount', 0))`: a missing key falls back to `0`;
a numeric value passes through; a string value is parsed, raising
`ValueError` (carried as the message) when it does not parse. -/
def floatOfAmt : Amt → Except String Dec
  | .missing => .ok ⟨0, 1⟩
  | .num q => .ok q
  | .str s =>
      match parseFloatStr s with
      | some q => .ok q
      | none => .error ("could not convert string to float: '" ++ s ++ "'")

/-- An invoice record. String fields model Python string values, with `""`
standing for a missing key (equivalent under every path the code takes:
`get(field)` truthiness and `get(field, '')`). The amount keeps the
missing/string/number distinction. -/
structure Invoice where
  invoice_id : String := ""
  vendor_name : String := ""
  tax_id : String := ""
  amount : Amt := .missing
  date : String := ""
deriving DecidableEq, Repr

/-- An approved-vendor record of the reference data. -/
structure Vendor where
  vendor_name : String
  tax_id : String
  credit_limit : Dec
  risk_level : String
  status : String
deriving DecidableEq, Repr

/-- A blacklisted-vendor record of the reference data. -/
structure BlacklistEntry where
  vendor_name : String
  tax_id : String
deriving DecidableEq, Repr

/-- A purchase-order record of the reference data. -/
structure PurchaseOrder where
  po_number : String
  vendor_name : String
  status : String
  total_amount : Dec
  created_date : String
deriving DecidableEq, Repr

/-- The reference data (`self.erp_data`). -/
structure ErpData where
  purchase_orders : List PurchaseOrder
  approved_vendors : List Vendor
  blacklisted_vendors : List BlacklistEntry
deriving DecidableEq, Repr

/-- The `details` dict built by `_erp_validation`; absent keys are `none`. -/
structure ErpDetails where
  blacklisted : Bool
  vendor_approved : Option Bool := none
  vendor_risk_level : Option String := none
  po_matched : Option Bool := none
  po_number : Option String := none
deriving DecidableEq, Repr

/-- A basic/contextual stage entry of `validation_details`. -/
structure StageResult where
  passed : Bool
  issues : List String
  score : Nat
deriving DecidableEq, Repr

/-- The `erp_validation` entry of `validation_details`. -/
structure ErpStage where
  passed : Bool
  issues : List String
  details : ErpDetails
  score : Nat
deriving DecidableEq, Repr

/-- The `fraud_detection` entry of `validation_details`. -/
structure FraudStage where
  passed : Bool
  issues : List String
  risk_score : Nat
  score : Nat
deriving DecidableEq, Repr

/-- The complete `validation_details` mapping. -/
structure ValidationDetails where
  basic_validation : StageResult
  erp_validation : ErpStage
  contextual_validation : StageResult
  fraud_detection : FraudStage
  overall_score : Nat
deriving DecidableEq, Repr

/-! ## Stage 1: `_basic_validation` -/

/-- Full match of `^[A-Z0-9\-]{3,20}$` (`re.match` with a `$` anchor). -/
def invoiceIdFormat (s : String) : Bool :=
  3 ≤ s.data.length && s.data.length ≤ 20 &&
    s.data.all (fun c =>
      (decide ('A' ≤ c) && decide (c ≤ 'Z')) || c.isDigit || c == '-')

/-- Full match of `^\d{2}-\d{7}$`. -/
def taxIdFormat (s : String) : Bool :=
  match s.data with
  | [a, b, h, c1, c2, c3, c4, c5, c6, c7] =>
      a.isDigit && b.isDigit && h == '-' &&
        [c1, c2, c3, c4, c5, c6, c7].all (·.isDigit)
  | _ => false

/-- The required-fields loop of `_basic_validation` (issues in field order). -/
def requiredFieldIssues (inv : Invoice) : List String :=
  (if inv.invoice_id.data.isEmpty then ["Missing required field: invoice_id"] else []) ++
  (if inv.vendor_name.data.isEmpty then ["Missing required field: vendor_name"] else []) ++
  (if inv.tax_id.data.isEmpty then ["Missing required field: tax_id"] else []) ++
  (if !inv.amount.truthy then ["Missing required field: amount"] else []) ++
  (if inv.date.data.isEmpty then ["Missing required field: date"] else [])

/-- The amount block of `_basic_validation` (`try: float(...) ... except`). -/
def amountIssues (inv : Invoice) : List String :=
  match floatOfAmt inv.amount with
  | .error _ => ["Invalid amount format"]
  | .ok a =>
      if Dec.le a ⟨0, 1⟩ then ["Invoice amount must be positive"]
      else if Dec.lt ⟨100000, 1⟩ a then
        ["CRITICAL: Invoice amount exceeds $100,000 threshold"]
      else []

/-- The date block of `_basic_validation` (`try: strptime ... except ValueError`). -/
def dateIssues (c : Clock) (inv : Invoice) : List String :=
  match parseDate inv.date with
  | .error _ => ["Invalid date format (expected YYYY-MM-DD)"]
  | .ok d =>
      if dateAfterNow d c then ["Invoice date cannot be in the future"]
      else if dateTooOld d c then ["Invoice date is more than 1 year old"]
      else []

/-- Stage 1 (`_basic_validation`): never raises. -/
def basicValidation (c : Clock) (inv : Invoice) : List String :=
  requiredFieldIssues inv ++
  amountIssues inv ++
  (if !invoiceIdFormat inv.invoice_id then ["Invalid invoice ID format"] else []) ++
  (if !taxIdFormat inv.tax_id then ["Invalid tax ID format (expected XX-XXXXXXX)"] else []) ++
  dateIssues c inv

/-! ## Stage 2: `_erp_validation` -/

/-- The blacklist test: some blacklisted record matches on name
(case-insensitive) OR on tax id — the code's `any(... or ...)`. -/
def blacklistHit (erp : ErpData) (inv : Invoice) : Bool :=
  erp.blacklisted_vendors.any (fun v =>
    lowerStr v.vendor_name == lowerStr inv.vendor_name || v.tax_id == inv.tax_id)

/-- The approved-vendor lookup: first record matching on name
(case-insensitive) AND tax id. -/
def findApproved (erp : ErpData) (inv : Invoice) : Option Vendor :=
  erp.approved_vendors.find? (fun v =>
    lowerStr v.vendor_name == lowerStr inv.vendor_name && v.tax_id == inv.tax_id)

/-- The purchase-order lookup: first open order matching on name
(case-insensitive) with `abs(total - amount) < 0.01`. -/
def findPO (erp : ErpData) (inv : Invoice) (amount : Dec) : Option PurchaseOrder :=
  erp.purchase_orders.find? (fun po =>
    lowerStr po.vendor_name == lowerStr inv.vendor_name && po.status == "open" &&
      Dec.absDiffLtCent po.total_amount amount)

/-- The checks applied to a found approved vendor (source lines 181–189):
credit limit, then `if risk high … elif status != approved …`. -/
def vendorChecks (amount : Dec) (v : Vendor) : List String :=
  (if Dec.lt v.credit_limit amount then
    ["Invoice amount exceeds vendor credit limit of $" ++ formatMoney v.credit_limit]
  else []) ++
  (if v.risk_level == "high" then
    ["WARNING: High-risk vendor requires additional approval"]
  else if v.status != "approved" then
    ["Vendor status is '" ++ v.status ++ "', not fully approved"]
  else [])

/-- The non-blacklisted remainder of `_erp_validation` (vendor lookup, then
purchase-order matching; the PO-date `strptime` calls are outside any
`try`, so their `ValueError` escapes). -/
def erpRest (erp : ErpData) (inv : Invoice) (amount : Dec) :
    Except String (List String × ErpDetails) :=
  let vres : List String × ErpDetails :=
    match findApproved erp inv with
    | none =>
        (["Vendor not found in approved vendor list"],
         { blacklisted := false, vendor_approved := some false })
    | some v =>
        (vendorChecks amount v,
         { blacklisted := false, vendor_approved := some true,
           vendor_risk_level := some v.risk_level })
  match findPO erp inv amount with
  | none =>
      .ok (vres.1 ++ ["No matching open purchase order found"],
           { vres.2 with po_matched := some false })
  | some po =>
      match parseDate po.created_date with
      | .error e => .error e
      | .ok poDate =>
          match parseDate inv.date with
          | .error e => .error e
          | .ok invDate =>
              let det := { vres.2 with po_matched := some true, po_number := some po.po_number }
              if dateOrdinal invDate < dateOrdinal poDate then
                .ok (vres.1 ++ ["Invoice date is before purchase order date"], det)
              else .ok (vres.1, det)

/-- Stage 2 (`_erp_validation`). `float(invoice_data.get('amount', 0))` on
line 150 is outside any `try`, so an unparseable amount raises. On a
blacklist hit the stage returns at once with the single critical issue. -/
def erpValidation (erp : ErpData) (inv : Invoice) :
    Except String (List String × ErpDetails) :=
  match floatOfAmt inv.amount with
  | .error e => .error e
  | .ok amount =>
      if blacklistHit erp inv then
        .ok (["CRITICAL: Vendor is blacklisted in ERP system"],
             { blacklisted := true })
      else erpRest erp inv amount

/-! ## Stage 3: `_contextual_validation` -/

/-- Stage 3 (`_contextual_validation`): the whole body is inside
`try ... except (ValueError, TypeError) as e`, which turns a parse failure
into the single issue `"Contextual validation failed: " + str(e)`. -/
def contextualValidation (c : Clock) (inv : Invoice) : List String :=
  match floatOfAmt inv.amount with
  | .error e => ["Contextual validation failed: " ++ e]
  | .ok amount =>
      match parseDate inv.date with
      | .error e => ["Contextual validation failed: " ++ e]
      | .ok d =>
          (if weekday d ≥ 5 then ["WARNING: Invoice dated on weekend"] else []) ++
          (if inv.invoice_id.data.length < 5 then
            ["Invoice ID too short for proper tracking"] else []) ++
          (if Dec.lt ⟨50000, 1⟩ amount then
            ["High-value invoice requires CFO approval"] else []) ++
          (if (splitWs inv.vendor_name.data).length < 2 then
            ["WARNING: Vendor name seems incomplete"] else []) ++
          (if c.month == 12 && Dec.lt ⟨10000, 1⟩ amount then
            ["Year-end high-value invoice - verify budget availability"] else [])

/-! ## Stage 4: `_fraud_detection` -/

/-- The list `self.fraud_keywords`, in source order. -/
def fraudKeywords : List String :=
  ["urgent", "immediate payment", "act now", "limited time",
   "wire transfer only", "cash only", "bitcoin", "cryptocurrency"]

/-- Stage 4 (`_fraud_detection`). `float(...)` (line 258) and
`strptime(...)` (line 288) are outside any `try`, so their errors escape.
A date parsed by `'%Y-%m-%d'` always has time 00:00, so the midnight
heuristic (line 289) always adds 1 once the date parses. -/
def fraudDetection (erp : ErpData) (inv : Invoice) :
    Except String (List String × Nat) :=
  let vlow := lowerStr inv.vendor_name
  match floatOfAmt inv.amount with
  | .error e => .error e
  | .ok amount =>
      let kws := fraudKeywords.filter (fun k => containsSub vlow.data k.data)
      let kwIssues := kws.map (fun k =>
        "FRAUD ALERT: Suspicious keyword '" ++ k ++ "' in vendor name")
      let s1 := 3 * kws.length
      let s2 := s1 + (if amount.multipleOf1000 then 1 else 0)
      let hi := Dec.lt ⟨25000, 1⟩ amount
      let s3 := s2 + (if hi then 2 else 0)
      let i3 : List String := if hi then ["High-value transaction flagged for review"] else []
      let dig := hasDigitRun3 vlow.data
      let s4 := s3 + (if dig then 1 else 0)
      let i4 : List String :=
        if dig then ["WARNING: Vendor name contains suspicious digit pattern"] else []
      let similar := erp.approved_vendors.filter (fun v =>
        (splitWs vlow.data).any (fun w => containsSub (lowerStr v.vendor_name).data w))
      let sim := similar.length > 1
      let s5 := s4 + (if sim then 1 else 0)
      let i5 : List String :=
        if sim then ["WARNING: Similar vendor names exist - verify authenticity"] else []
      match parseDate inv.date with
      | .error e => .error e
      | .ok _ => .ok (kwIssues ++ i3 ++ i4 ++ i5, s5 + 1)

/-! ## Aggregation: `validate_invoice` -/

/-- Stage 1 score: 25 if no issues, else 0. -/
def stageScoreBasic (issues : List String) : Nat :=
  if issues.length == 0 then 25 else 0

/-- Stage 2 score: 30 if no issues, 10 if fewer than 3, else 0. -/
def stageScoreErp (issues : List String) : Nat :=
  if issues.length == 0 then 30 else if issues.length < 3 then 10 else 0

/-- Stage 3 score: 25 if no issues, 10 if fewer than 2, else 0. -/
def stageScoreCtx (issues : List String) : Nat :=
  if issues.length == 0 then 25 else if issues.length < 2 then 10 else 0

/-- Stage 4 score: 20 if risk score < 3, 10 if < 6, else 0. -/
def stageScoreFraud (riskScore : Nat) : Nat :=
  if riskScore < 3 then 20 else if riskScore < 6 then 10 else 0

/-- The test `"critical" in issue.lower()`. -/
def isCritical (i : String) : Bool := containsSub (lowerStr i).data (("critical" : String).data)

/-- The final-status decision (source lines 91–97). -/
def decideStatus (total : Nat) (issues : List String) : String :=
  if 80 ≤ total ∧ issues.length = 0 then ("approved")
  else if 60 ≤ total ∧ (issues.filter isCritical).length = 0 then
    ("approved_with_conditions")
  else ("rejected")

/-- Assemble the verdict from the four stage outputs (source lines 44–99
minus the stage calls themselves). -/
def assemble (bIs eIs cIs fIs : List String) (eDet : ErpDetails)
    (riskScore : Nat) : String × List String × ValidationDetails :=
  let total := stageScoreBasic bIs + stageScoreErp eIs + stageScoreCtx cIs +
    stageScoreFraud riskScore
  let issues := bIs ++ eIs ++ cIs ++ fIs
  (decideStatus total issues, issues,
   { basic_validation := ⟨bIs.isEmpty, bIs, stageScoreBasic bIs⟩,
     erp_validation := ⟨eIs.isEmpty, eIs, eDet, stageScoreErp eIs⟩,
     contextual_validation := ⟨cIs.isEmpty, cIs, stageScoreCtx cIs⟩,
     fraud_detection := ⟨fIs.isEmpty, fIs, riskScore, stageScoreFraud riskScore⟩,
     overall_score := total })

/-- The pipeline `validate_invoice`: runs the four stages in order; an exception from
stage 2 or stage 4 escapes (stage 2 first, as in the source). -/
def validateInvoice (erp : ErpData) (c : Clock) (inv : Invoice) :
    Except String (String × List String × ValidationDetails) :=
  let bIs := basicValidation c inv
  match erpValidation erp inv with
  | .error e => .error e
  | .ok (eIs, eDet) =>
      let cIs := contextualValidation c inv
      match fraudDetection erp inv with
      | .error e => .error e
      | .ok (fIs, riskScore) => .ok (assemble bIs eIs cIs fIs eDet riskScore)

/-- The total issue count across the four stages recorded in a verdict. -/
def totalIssueCount (det : ValidationDetails) : Nat :=
  det.basic_validation.issues.length + det.erp_validation.issues.length +
    det.contextual_validation.issues.length + det.fraud_detection.issues.length

/-! ## Concrete fixtures (used to instantiate the theorems) -/

/-- A fixed wall clock: 2025-10-12, noon, month 10. -/
def clockNow : Clock := { ord := dateOrdinal ⟨2025, 10, 12⟩, tod := ⟨1, 2⟩, month := 10 }

/-- A well-formed approved vendor. -/
def vendorAcme : Vendor :=
  { vendor_name := "Acme Corp", tax_id := "12-3456789", credit_limit := ⟨50000, 1⟩,
    risk_level := "low", status := "approved" }

/-- An open purchase order matching `invGood`. -/
def poAcme : PurchaseOrder :=
  { po_number := "PO-1", vendor_name := "Acme Corp", status := "open",
    total_amount := ⟨1500, 1⟩, created_date := "2025-08-01" }

/-- Reference data under which `invGood` passes every check. -/
def erpGood : ErpData :=
  { purchase_orders := [poAcme], approved_vendors := [vendorAcme],
    blacklisted_vendors := [] }

/-- A fully well-formed invoice. -/
def invGood : Invoice :=
  { invoice_id := "INV-20001", vendor_name := "Acme Corp", tax_id := "12-3456789",
    amount := .num ⟨1500, 1⟩, date := "2025-08-04" }

/-- The verdict details `validateInvoice erpGood clockNow invGood` produces. -/
def detGood : ValidationDetails :=
  { basic_validation := ⟨true, [], 25⟩,
    erp_validation := ⟨true, [], ⟨false, some true, some ("low"), some true, some ("PO-1")⟩, 30⟩,
    contextual_validation := ⟨true, [], 25⟩,
    fraud_detection := ⟨true, [], 1, 20⟩,
    overall_score := 100 }

/-- Reference data whose only record is one blacklisted vendor. -/
def erpEvil : ErpData := ⟨[], [], [⟨"Evil Corp", "99-9999999"⟩]⟩

/-- An invoice matching the blacklist entry on both name and tax id. -/
def invEvil : Invoice :=
  { invoice_id := "INV-30001", vendor_name := "Evil Corp", tax_id := "99-9999999",
    amount := .num ⟨500, 1⟩, date := "2025-08-04" }

/-- The verdict details `validateInvoice erpEvil clockNow invEvil` produces. -/
def detEvil : ValidationDetails :=
  { basic_validation := ⟨true, [], 25⟩,
    erp_validation :=
      ⟨false, ["CRITICAL: Vendor is blacklisted in ERP system"],
       ⟨true, none, none, none, none⟩, 10⟩,
    contextual_validation := ⟨true, [], 25⟩,
    fraud_detection := ⟨true, [], 1, 20⟩,
    overall_score := 80 }

/-- An invoice matching the blacklist entry on name only (different tax id). -/
def invEvilName : Invoice :=
  { invoice_id := "INV-30002", vendor_name := "Evil Corp", tax_id := "11-1111111",
    amount := .num ⟨500, 1⟩, date := "2025-08-04" }

/-- An approved vendor that is both high-risk and not fully approved. -/
def vendorHigh : Vendor :=
  { vendor_name := "Zeta Systems", tax_id := "22-2222222", credit_limit := ⟨50000, 1⟩,
    risk_level := "high", status := "pending" }

/-- Reference data whose only record is `vendorHigh`. -/
def erpHigh : ErpData := ⟨[], [vendorHigh], []⟩

/-- An invoice from `vendorHigh`, within its credit limit. -/
def invZeta : Invoice :=
  { invoice_id := "INV-40001", vendor_name := "Zeta Systems", tax_id := "22-2222222",
    amount := .num ⟨500, 1⟩, date := "2025-08-04" }

/-- The clean invoice with the `amount` key absent. -/
def invNoAmt : Invoice := { invGood with amount := .missing }

/-- The clean invoice with an empty-string amount value. -/
def invEmptyAmt : Invoice := { invGood with amount := .str ("") }

/-! ## Helper lemmas -/

/-- Membership in a conditional singleton. -/
theorem mem_ite_nil {α : Type} (x a : α) (c : Prop) [Decidable c] :
    x ∈ (if c then [a] else ([] : List α)) ↔ c ∧ x = a := by
  split <;> simp [*]

/-- Strings differing within the first `n` characters of the left append
factor are different. -/
theorem str_ne_of_take (a x b : String) (n : Nat) (hn : n ≤ a.data.length)
    (h : a.data.take n ≠ b.data.take n) : a ++ x ≠ b := by
  intro he
  apply h
  rw [← he, String.data_append, List.take_append_of_le_length hn]

/-- Appended strings differing within the first `n` characters of their
left factors are different. -/
theorem str_ne_of_take₂ (a x b y : String) (n : Nat) (hna : n ≤ a.data.length)
    (hnb : n ≤ b.data.length) (h : a.data.take n ≠ b.data.take n) :
    a ++ x ≠ b ++ y := by
  intro he
  apply h
  have := congrArg String.data he
  rw [String.data_append, String.data_append] at this
  rw [← List.take_append_of_le_length hna, this, List.take_append_of_le_length hnb]

/-- Successful validation decomposes into successful stage 2 and stage 4 runs
assembled by `assemble`. -/
theorem validateInvoice_ok_inv (erp : ErpData) (c : Clock) (inv : Invoice)
    (r : String × List String × ValidationDetails)
    (h : validateInvoice erp c inv = .ok r) :
    ∃ eIs eDet fIs rs,
      erpValidation erp inv = .ok (eIs, eDet) ∧
      fraudDetection erp inv = .ok (fIs, rs) ∧
      r = assemble (basicValidation c inv) eIs (contextualValidation c inv) fIs eDet rs := by
  unfold validateInvoice at h
  rcases hE : erpValidation erp inv with e | ⟨eIs, eDet⟩ <;> rw [hE] at h
  · exact absurd h (by simp)
  rcases hF : fraudDetection erp inv with f | ⟨fIs, rs⟩ <;> rw [hF] at h
  · exact absurd h (by simp)
  refine ⟨eIs, eDet, fIs, rs, rfl, rfl, ?_⟩
  simpa using h.symm

/-- A successful stage 2 run presupposes a parseable amount. -/
theorem erpValidation_ok_float (erp : ErpData) (inv : Invoice)
    (p : List String × ErpDetails) (h : erpValidation erp inv = .ok p) :
    ∃ a, floatOfAmt inv.amount = .ok a := by
  unfold erpValidation at h
  rcases ha : floatOfAmt inv.amount with e | a <;> rw [ha] at h
  · exact absurd h (by simp)
  · exact ⟨a, rfl⟩

/-- On a blacklist hit, stage 2 returns the single critical issue. -/
theorem erpValidation_blacklisted (erp : ErpData) (inv : Invoice) (a : Dec)
    (ha : floatOfAmt inv.amount = .ok a) (hb : blacklistHit erp inv = true) :
    erpValidation erp inv =
      .ok (["CRITICAL: Vendor is blacklisted in ERP system"],
           ⟨true, none, none, none, none⟩) := by
  unfold erpValidation
  rw [ha, hb]
  simp

/-- A conditional between two successful stage-2 results, both reporting
`blacklisted := false`, satisfies the stage-2 outcome disjunction. -/
theorem ite_ok_helper (c : Prop) [Decidable c] (x y : List String × ErpDetails)
    (hx : x.2.blacklisted = false) (hy : y.2.blacklisted = false) :
    (∃ e, (if c then Except.ok x else Except.ok y) = (Except.error e : Except String (List String × ErpDetails))) ∨
    ∃ is det, (if c then Except.ok x else Except.ok y) =
        (Except.ok (is, det) : Except String (List String × ErpDetails)) ∧
      det.blacklisted = false := by
  by_cases h : c
  · rw [if_pos h]
    exact Or.inr ⟨x.1, x.2, rfl, hx⟩
  · rw [if_neg h]
    exact Or.inr ⟨y.1, y.2, rfl, hy⟩

/-- The non-blacklisted remainder of stage 2 either raises or reports
`blacklisted := false`. -/
theorem erpRest_not_blacklisted (erp : ErpData) (inv : Invoice) (a : Dec) :
    (∃ e, erpRest erp inv a = .error e) ∨
    ∃ is det, erpRest erp inv a = .ok (is, det) ∧ det.blacklisted = false := by
  unfold erpRest
  rcases findApproved erp inv with _ | v <;> rcases findPO erp inv a with _ | po
  · simp
    exact ⟨_, _, ⟨rfl, rfl⟩, rfl⟩
  · dsimp only
    rcases parseDate po.created_date with e | pd
    · simp
    rcases parseDate inv.date with e' | invd
    · simp
    exact ite_ok_helper _ _ _ rfl rfl
  · simp
    exact ⟨_, _, ⟨rfl, rfl⟩, rfl⟩
  · dsimp only
    rcases parseDate po.created_date with e | pd
    · simp
    rcases parseDate inv.date with e' | invd
    · simp
    exact ite_ok_helper _ _ _ rfl rfl

/-- The code's blacklist test holds iff some blacklisted record matches on
lower-cased name or on tax id. -/
theorem blacklistHit_iff (erp : ErpData) (inv : Invoice) :
    blacklistHit erp inv = true ↔
      ∃ v ∈ erp.blacklisted_vendors,
        lowerStr v.vendor_name = lowerStr inv.vendor_name ∨ v.tax_id = inv.tax_id := by
  simp [blacklistHit, List.any_eq_true]

/-- The final-status rule, characterised. -/
theorem decideStatus_spec (total : Nat) (issues : List String) :
    (decideStatus total issues = "approved" ↔ 80 ≤ total ∧ issues.length = 0) ∧
    (decideStatus total issues = "approved_with_conditions" ↔
      ¬(80 ≤ total ∧ issues.length = 0) ∧ 60 ≤ total ∧
        ∀ i ∈ issues, isCritical i = false) ∧
    (decideStatus total issues = "rejected" ↔
      ¬(80 ≤ total ∧ issues.length = 0) ∧
      ¬(60 ≤ total ∧ ∀ i ∈ issues, isCritical i = false)) := by
  have hfil : (issues.filter isCritical).length = 0 ↔ ∀ i ∈ issues, isCritical i = false := by
    rw [List.length_eq_zero, List.filter_eq_nil_iff]
    simp
  unfold decideStatus
  split_ifs with h1 h2
  · refine ⟨iff_of_true rfl h1, iff_of_false (by decide) ?_, iff_of_false (by decide) ?_⟩
    · exact fun hc => hc.1 h1
    · exact fun hc => hc.1 h1
  · rw [hfil] at h2
    refine ⟨iff_of_false (by decide) ?_, iff_of_true rfl ⟨h1, h2.1, h2.2⟩,
      iff_of_false (by decide) ?_⟩
    · exact fun hc => h1 hc
    · exact fun hc => hc.2 h2
  · rw [hfil] at h2
    exact ⟨iff_of_false (by decide) h1, iff_of_false (by decide) (fun hc => h2 ⟨hc.2.1, hc.2.2⟩),
      iff_of_true rfl ⟨h1, h2⟩⟩

/-- A critical issue anywhere in the list forces rejection. -/
theorem decideStatus_rejected_of_critical (total : Nat) (issues : List String)
    (i : String) (hm : i ∈ issues) (hc : isCritical i = true) :
    decideStatus total issues = "rejected" := by
  have h0 : issues.length ≠ 0 := by
    intro h
    rw [List.length_eq_zero] at h
    rw [h] at hm
    exact absurd hm (by simp)
  have h1 : ¬ ∀ j ∈ issues, isCritical j = false := by
    intro h
    have := h i hm
    rw [hc] at this
    exact absurd this (by decide)
  have hs := (decideStatus_spec total issues).2.2
  rw [hs]
  exact ⟨fun hcon => h0 hcon.2, fun hcon => h1 hcon.2⟩

/-- Stage score bounds. -/
theorem stageScore_bounds (bIs eIs cIs : List String) (rs : Nat) :
    stageScoreBasic bIs ≤ 25 ∧ stageScoreErp eIs ≤ 30 ∧
      stageScoreCtx cIs ≤ 25 ∧ stageScoreFraud rs ≤ 20 := by
  unfold stageScoreBasic stageScoreErp stageScoreCtx stageScoreFraud
  refine ⟨?_, ?_, ?_, ?_⟩ <;> split_ifs <;> omega

/-! ## Claim theorems -/

/-- C1: whenever `validateInvoice` returns, the final status is decided in
strict order: `"approved"` exactly when the overall score is ≥ 80 and the
total issue count across the four stages is zero; otherwise
`"approved_with_conditions"` exactly when the overall score is ≥ 60 and no
issue contains `"critical"` case-insensitively; otherwise `"rejected"`.
In particular, overall score exactly 80 with one non-critical issue gives
`"approved_with_conditions"`. -/
theorem C1_final_status_rule (erp : ErpData) (c : Clock) (inv : Invoice)
    (st : String) (issues : List String) (det : ValidationDetails)
    (h : validateInvoice erp c inv = .ok (st, issues, det)) :
    (st = "approved" ↔ 80 ≤ det.overall_score ∧ totalIssueCount det = 0) ∧
    (st = "approved_with_conditions" ↔
      ¬(80 ≤ det.overall_score ∧ totalIssueCount det = 0) ∧
        60 ≤ det.overall_score ∧ ∀ i ∈ issues, isCritical i = false) ∧
    (st = "rejected" ↔
      ¬(80 ≤ det.overall_score ∧ totalIssueCount det = 0) ∧
      ¬(60 ≤ det.overall_score ∧ ∀ i ∈ issues, isCritical i = false)) ∧
    (det.overall_score = 80 → issues.length = 1 →
      (∀ i ∈ issues, isCritical i = false) → st = "approved_with_conditions") := by
  obtain ⟨eIs, eDet, fIs, rs, hE, hF, hr⟩ := validateInvoice_ok_inv erp c inv _ h
  simp only [assemble, Prod.mk.injEq] at hr
  obtain ⟨hst, hiss, hdet⟩ := hr
  subst hst
  subst hiss
  subst hdet
  obtain ⟨hA, hB, hC⟩ := decideStatus_spec
    (stageScoreBasic (basicValidation c inv) + stageScoreErp eIs +
      stageScoreCtx (contextualValidation c inv) + stageScoreFraud rs)
    (basicValidation c inv ++ eIs ++ contextualValidation c inv ++ fIs)
  refine ⟨?_, ?_, ?_, ?_⟩
  · simpa only [totalIssueCount, List.length_append] using hA
  · simpa only [totalIssueCount, List.length_append] using hB
  · simpa only [totalIssueCount, List.length_append] using hC
  · intro hsc hlen hnc
    refine hB.mpr ⟨?_, ?_, hnc⟩
    · intro hcon
      omega
    · simp only [totalIssueCount] at hsc
      omega

/-- C1 witness: a concrete fully clean invoice. -/
theorem C1_final_status_rule_witness :
    validateInvoice erpGood clockNow invGood = .ok ("approved", [], detGood) ∧
    (("approved" : String) = "approved" ↔
      80 ≤ detGood.overall_score ∧ totalIssueCount detGood = 0) :=
  ⟨rfl, (C1_final_status_rule erpGood clockNow invGood ("approved") [] detGood rfl).1⟩

/-- C6: whenever `validateInvoice` returns, the recorded overall score is the
exact sum of the four stage scores, and lies in `[0, 100]` (the lower bound
holds because scores are naturals). -/
theorem C6_overall_score_sum (erp : ErpData) (c : Clock) (inv : Invoice)
    (st : String) (issues : List String) (det : ValidationDetails)
    (h : validateInvoice erp c inv = .ok (st, issues, det)) :
    det.overall_score = det.basic_validation.score + det.erp_validation.score +
      det.contextual_validation.score + det.fraud_detection.score ∧
    det.overall_score ≤ 100 := by
  obtain ⟨eIs, eDet, fIs, rs, hE, hF, hr⟩ := validateInvoice_ok_inv erp c inv _ h
  simp only [assemble, Prod.mk.injEq] at hr
  obtain ⟨hst, hiss, hdet⟩ := hr
  subst hdet
  obtain ⟨b1, b2, b3, b4⟩ := stageScore_bounds (basicValidation c inv) eIs
    (contextualValidation c inv) rs
  constructor
  · rfl
  · dsimp only
    omega

/-- C6 witness: the clean invoice scores 100 = 25 + 30 + 25 + 20. -/
theorem C6_overall_score_sum_witness :
    validateInvoice erpGood clockNow invGood = .ok ("approved", [], detGood) ∧
    (detGood.overall_score = detGood.basic_validation.score +
        detGood.erp_validation.score + detGood.contextual_validation.score +
        detGood.fraud_detection.score ∧
      detGood.overall_score ≤ 100) :=
  ⟨rfl, C6_overall_score_sum erpGood clockNow invGood ("approved") [] detGood rfl⟩

/-- C7: `validateInvoice` is a deterministic function of the invoice data,
the reference data and the clock — the embedding passes every piece of state
the code consults (`self.erp_data`, `datetime.now()`) explicitly, and two
validations of the same invoice against the same state yield identical
verdicts. -/
theorem C7_deterministic (erp : ErpData) (c : Clock) (inv : Invoice)
    (r₁ r₂ : Except String (String × List String × ValidationDetails))
    (h₁ : validateInvoice erp c inv = r₁) (h₂ : validateInvoice erp c inv = r₂) :
    r₁ = r₂ := by
  rw [← h₁, h₂]

/-- C7 witness: two runs on the clean invoice agree. -/
theorem C7_deterministic_witness :
    validateInvoice erpGood clockNow invGood = .ok ("approved", [], detGood) ∧
    (Except.ok (("approved" : String), ([] : List String), detGood) :
        Except String (String × List String × ValidationDetails)) =
      .ok ("approved", [], detGood) :=
  ⟨rfl, C7_deterministic erpGood clockNow invGood
    (.ok ("approved", [], detGood)) (.ok ("approved", [], detGood)) rfl rfl⟩

/-- C9: whenever `validateInvoice` returns on an invoice matching a
blacklisted record (the code matches on lower-cased name OR tax id), the
final status is `"rejected"`: the critical blacklist issue makes the issue
list non-empty and case-insensitively contains `"critical"`. -/
theorem C9_blacklisted_rejected (erp : ErpData) (c : Clock) (inv : Invoice)
    (st : String) (issues : List String) (det : ValidationDetails)
    (h : validateInvoice erp c inv = .ok (st, issues, det))
    (hb : ∃ v ∈ erp.blacklisted_vendors,
      lowerStr v.vendor_name = lowerStr inv.vendor_name ∨ v.tax_id = inv.tax_id) :
    st = "rejected" := by
  obtain ⟨eIs, eDet, fIs, rs, hE, hF, hr⟩ := validateInvoice_ok_inv erp c inv _ h
  obtain ⟨a, ha⟩ := erpValidation_ok_float erp inv _ hE
  have hbl : blacklistHit erp inv = true := (blacklistHit_iff erp inv).mpr hb
  have hE' := erpValidation_blacklisted erp inv a ha hbl
  rw [hE] at hE'
  simp only [Except.ok.injEq, Prod.mk.injEq] at hE'
  obtain ⟨heIs, heDet⟩ := hE'
  subst heIs
  simp only [assemble, Prod.mk.injEq] at hr
  obtain ⟨hst, hiss, hdet⟩ := hr
  subst hst
  apply decideStatus_rejected_of_critical _ _ ("CRITICAL: Vendor is blacklisted in ERP system")
  · simp [List.mem_append]
  · decide

/-- C9 witness: a concrete blacklisted invoice is rejected. -/
theorem C9_blacklisted_rejected_witness :
    validateInvoice erpEvil clockNow invEvil =
      .ok ("rejected", ["CRITICAL: Vendor is blacklisted in ERP system"], detEvil) ∧
    (∃ v ∈ erpEvil.blacklisted_vendors,
      lowerStr v.vendor_name = lowerStr invEvil.vendor_name ∨
        v.tax_id = invEvil.tax_id) ∧
    ("rejected" : String) = "rejected" :=
  ⟨rfl, by decide,
   C9_blacklisted_rejected erpEvil clockNow invEvil ("rejected")
     ["CRITICAL: Vendor is blacklisted in ERP system"] detEvil rfl (by decide)⟩

/-- C3 counterexample: for a concrete invoice whose `(vendor_name, tax_id)`
is blacklisted, the Cross-Reference stage recorded in the verdict has one
issue but a stage score of 10, not 0 (the score rule gives 10 for 1–2
issues; 0 requires ≥ 3). -/
theorem C3_blacklisted_score_counterexample :
    (∃ v ∈ erpEvil.blacklisted_vendors,
      lowerStr v.vendor_name = lowerStr invEvil.vendor_name ∧
        v.tax_id = invEvil.tax_id) ∧
    (validateInvoice erpEvil clockNow invEvil).map
        (fun r => (r.2.2.erp_validation.issues.length, r.2.2.erp_validation.score)) =
      .ok (1, 10) :=
  ⟨by decide, rfl⟩

/-- C3 (amended): for every invoice whose `(vendor_name, tax_id)` is
blacklisted and on which `validateInvoice` returns, the Cross-Reference
stage in the verdict has exactly the single critical issue and a stage
score of 10 (not 0), regardless of the other stages. -/
theorem C3_blacklisted_stage_result (erp : ErpData) (c : Clock) (inv : Invoice)
    (st : String) (issues : List String) (det : ValidationDetails)
    (h : validateInvoice erp c inv = .ok (st, issues, det))
    (hb : ∃ v ∈ erp.blacklisted_vendors,
      lowerStr v.vendor_name = lowerStr inv.vendor_name ∧ v.tax_id = inv.tax_id) :
    det.erp_validation.issues = ["CRITICAL: Vendor is blacklisted in ERP system"] ∧
    det.erp_validation.score = 10 := by
  obtain ⟨eIs, eDet, fIs, rs, hE, hF, hr⟩ := validateInvoice_ok_inv erp c inv _ h
  obtain ⟨a, ha⟩ := erpValidation_ok_float erp inv _ hE
  have hbl : blacklistHit erp inv = true := (blacklistHit_iff erp inv).mpr
    (hb.elim fun v hv => ⟨v, hv.1, Or.inl hv.2.1⟩)
  have hE' := erpValidation_blacklisted erp inv a ha hbl
  rw [hE] at hE'
  simp only [Except.ok.injEq, Prod.mk.injEq] at hE'
  obtain ⟨heIs, heDet⟩ := hE'
  subst heIs
  simp only [assemble, Prod.mk.injEq] at hr
  obtain ⟨hst, hiss, hdet⟩ := hr
  subst hdet
  exact ⟨rfl, rfl⟩

/-- C3 witness: the concrete blacklisted invoice instantiates the amended
claim. -/
theorem C3_blacklisted_stage_result_witness :
    validateInvoice erpEvil clockNow invEvil =
      .ok ("rejected", ["CRITICAL: Vendor is blacklisted in ERP system"], detEvil) ∧
    (detEvil.erp_validation.issues = ["CRITICAL: Vendor is blacklisted in ERP system"] ∧
      detEvil.erp_validation.score = 10) :=
  ⟨rfl, C3_blacklisted_stage_result erpEvil clockNow invEvil ("rejected")
    ["CRITICAL: Vendor is blacklisted in ERP system"] detEvil rfl (by decide)⟩

/-- C2 counterexample: a concrete invoice agreeing with a blacklisted record
on the vendor name only (different tax id) is still flagged as blacklisted
with the single critical issue — the code combines the two comparisons with
`or`, not `and`. -/
theorem C2_blacklist_and_counterexample :
    (¬ ∃ v ∈ erpEvil.blacklisted_vendors,
      lowerStr v.vendor_name = lowerStr invEvilName.vendor_name ∧
        v.tax_id = invEvilName.tax_id) ∧
    erpValidation erpEvil invEvilName =
      .ok (["CRITICAL: Vendor is blacklisted in ERP system"],
           ⟨true, none, none, none, none⟩) :=
  ⟨by decide, rfl⟩

/-- C2 (amended): for every invoice with a parseable amount, the
Cross-Reference stage flags the invoice as blacklisted — returning exactly
the single issue `"CRITICAL: Vendor is blacklisted in ERP system"` and
performing no further checks — exactly when some blacklisted record matches
the invoice on vendor_name (case-insensitive) OR on tax_id. -/
theorem C2_blacklist_or_rule (erp : ErpData) (inv : Invoice) (a : Dec)
    (ha : floatOfAmt inv.amount = .ok a) :
    (∃ v ∈ erp.blacklisted_vendors,
        lowerStr v.vendor_name = lowerStr inv.vendor_name ∨ v.tax_id = inv.tax_id) ↔
      erpValidation erp inv =
        .ok (["CRITICAL: Vendor is blacklisted in ERP system"],
             ⟨true, none, none, none, none⟩) := by
  rw [← blacklistHit_iff]
  constructor
  · exact fun hb => erpValidation_blacklisted erp inv a ha hb
  · intro hok
    by_contra hb
    have hb' : blacklistHit erp inv = false := by
      cases hfb : blacklistHit erp inv
      · rfl
      · exact absurd hfb hb
    have hrest : erpValidation erp inv = erpRest erp inv a := by
      unfold erpValidation
      rw [ha]
      dsimp only
      rw [hb']
      simp
    rw [hrest] at hok
    rcases erpRest_not_blacklisted erp inv a with ⟨e, he⟩ | ⟨is, det, hd, hbl⟩
    · rw [he] at hok
      exact absurd hok (by simp)
    · rw [hd] at hok
      simp only [Except.ok.injEq, Prod.mk.injEq] at hok
      rw [hok.2] at hbl
      exact absurd hbl (by simp)

/-- C2 witness: the name-only match instantiates the amended rule. -/
theorem C2_blacklist_or_rule_witness :
    floatOfAmt invEvilName.amount = .ok ⟨500, 1⟩ ∧
    ((∃ v ∈ erpEvil.blacklisted_vendors,
        lowerStr v.vendor_name = lowerStr invEvilName.vendor_name ∨
          v.tax_id = invEvilName.tax_id) ↔
      erpValidation erpEvil invEvilName =
        .ok (["CRITICAL: Vendor is blacklisted in ERP system"],
             ⟨true, none, none, none, none⟩)) :=
  ⟨rfl, C2_blacklist_or_rule erpEvil invEvilName ⟨500, 1⟩ rfl⟩

/-- C8: with empty purchase-order, approved-vendor and blacklist lists,
every invoice on which the Cross-Reference stage returns gets both the
vendor-not-found and the no-matching-PO issue. -/
theorem C8_empty_reference_issues (inv : Invoice) (issues : List String)
    (det : ErpDetails)
    (h : erpValidation ⟨[], [], []⟩ inv = .ok (issues, det)) :
    "Vendor not found in approved vendor list" ∈ issues ∧
    "No matching open purchase order found" ∈ issues := by
  obtain ⟨a, ha⟩ := erpValidation_ok_float ⟨[], [], []⟩ inv _ h
  unfold erpValidation at h
  rw [ha] at h
  dsimp only at h
  rw [show blacklistHit ⟨[], [], []⟩ inv = false from rfl] at h
  simp only [Bool.false_eq_true, if_false] at h
  rw [show erpRest ⟨[], [], []⟩ inv a =
    .ok (["Vendor not found in approved vendor list",
          "No matching open purchase order found"],
         ⟨false, some false, none, some false, none⟩) from rfl] at h
  simp only [Except.ok.injEq, Prod.mk.injEq] at h
  obtain ⟨hiss, hdet⟩ := h
  subst hiss
  exact ⟨by simp, by simp⟩

/-- C8 witness: the clean invoice against empty reference data. -/
theorem C8_empty_reference_issues_witness :
    erpValidation ⟨[], [], []⟩ invGood =
      .ok (["Vendor not found in approved vendor list",
            "No matching open purchase order found"],
           ⟨false, some false, none, some false, none⟩) ∧
    ("Vendor not found in approved vendor list" ∈
        ["Vendor not found in approved vendor list",
         "No matching open purchase order found"] ∧
      "No matching open purchase order found" ∈
        ["Vendor not found in approved vendor list",
         "No matching open purchase order found"]) :=
  ⟨rfl, C8_empty_reference_issues invGood _ _ rfl⟩

/-- C4 (code behaviour at the failing inputs): a missing/empty date raises
`ValueError` from the uncaught `strptime` in `_fraud_detection`
(lines 286–292), and a non-numeric amount raises `ValueError` from the
uncaught `float` in `_erp_validation` (line 150); in both cases
`validate_invoice` propagates the exception instead of returning a
verdict — contradicting the spec's no-exception guarantee. -/
theorem C4_malformed_input_raises :
    validateInvoice ⟨[], [], []⟩ clockNow { invGood with date := "" } =
      .error ("time data '' does not match format '%Y-%m-%d'") ∧
    validateInvoice erpGood clockNow { invGood with amount := .str ("abc") } =
      .error ("could not convert string to float: 'abc'") :=
  ⟨rfl, rfl⟩

/-- The credit-limit issue differs from the high-risk warning. -/
theorem credit_ne_warn (f : String) :
    "Invoice amount exceeds vendor credit limit of $" ++ f ≠
      "WARNING: High-risk vendor requires additional approval" :=
  str_ne_of_take _ f _ 1 (by decide) (by decide)

/-- The credit-limit issue differs from the no-PO issue. -/
theorem credit_ne_noPO (f : String) :
    "Invoice amount exceeds vendor credit limit of $" ++ f ≠
      "No matching open purchase order found" :=
  str_ne_of_take _ f _ 1 (by decide) (by decide)

/-- The credit-limit issue differs from the PO-date issue. -/
theorem credit_ne_dateBefore (f : String) :
    "Invoice amount exceeds vendor credit limit of $" ++ f ≠
      "Invoice date is before purchase order date" :=
  str_ne_of_take _ f _ 9 (by decide) (by decide)

/-- The credit-limit issue differs from the vendor-status issue. -/
theorem credit_ne_status (f st : String) :
    "Invoice amount exceeds vendor credit limit of $" ++ f ≠
      "Vendor status is '" ++ st ++ "', not fully approved" := by
  rw [String.append_assoc]
  exact str_ne_of_take₂ _ f _ (st ++ "', not fully approved") 1 (by decide) (by decide)
    (by decide)

/-- The vendor-status issue differs from the high-risk warning. -/
theorem status_ne_warn (st : String) :
    "Vendor status is '" ++ st ++ "', not fully approved" ≠
      "WARNING: High-risk vendor requires additional approval" := by
  rw [String.append_assoc]
  exact str_ne_of_take _ _ _ 1 (by decide) (by decide)

/-- The vendor-status issue differs from the no-PO issue. -/
theorem status_ne_noPO (st : String) :
    "Vendor status is '" ++ st ++ "', not fully approved" ≠
      "No matching open purchase order found" := by
  rw [String.append_assoc]
  exact str_ne_of_take _ _ _ 1 (by decide) (by decide)

/-- The vendor-status issue differs from the PO-date issue. -/
theorem status_ne_dateBefore (st : String) :
    "Vendor status is '" ++ st ++ "', not fully approved" ≠
      "Invoice date is before purchase order date" := by
  rw [String.append_assoc]
  exact str_ne_of_take _ _ _ 1 (by decide) (by decide)

/-- The credit-limit issue appears among the found-vendor checks iff the
amount strictly exceeds the credit limit. -/
theorem vendorChecks_mem_credit (a : Dec) (v : Vendor) :
    ("Invoice amount exceeds vendor credit limit of $" ++ formatMoney v.credit_limit) ∈
        vendorChecks a v ↔ Dec.lt v.credit_limit a = true := by
  have h1 := credit_ne_warn (formatMoney v.credit_limit)
  have h2 := credit_ne_status (formatMoney v.credit_limit) v.status
  unfold vendorChecks
  by_cases hc : Dec.lt v.credit_limit a = true
  · simp [hc]
  · by_cases hr : v.risk_level = "high"
    · simp [hc, hr, h1]
    · by_cases hs : v.status = "approved"
      · simp [hc, hr, hs]
      · simp [hc, hr, hs, h2]

/-- The high-risk warning appears among the found-vendor checks iff the
vendor's risk level is `"high"`. -/
theorem vendorChecks_mem_warn (a : Dec) (v : Vendor) :
    "WARNING: High-risk vendor requires additional approval" ∈ vendorChecks a v ↔
      v.risk_level = "high" := by
  have h1 := credit_ne_warn (formatMoney v.credit_limit)
  have h2 := status_ne_warn v.status
  unfold vendorChecks
  by_cases hr : v.risk_level = "high"
  · by_cases hc : Dec.lt v.credit_limit a = true <;> simp [hc, hr]
  · by_cases hs : v.status = "approved" <;>
      by_cases hc : Dec.lt v.credit_limit a = true <;>
      simp [hc, hr, hs, Ne.symm h1, Ne.symm h2]

/-- The vendor-status issue appears among the found-vendor checks iff the
vendor is NOT high-risk and its status differs from `"approved"` — the
`elif` in the source suppresses it for high-risk vendors. -/
theorem vendorChecks_mem_status (a : Dec) (v : Vendor) :
    ("Vendor status is '" ++ v.status ++ "', not fully approved") ∈ vendorChecks a v ↔
      v.risk_level ≠ "high" ∧ v.status ≠ "approved" := by
  have h1 := credit_ne_status (formatMoney v.credit_limit) v.status
  have h2 := status_ne_warn v.status
  unfold vendorChecks
  by_cases hr : v.risk_level = "high"
  · by_cases hc : Dec.lt v.credit_limit a = true <;> simp [hc, hr, Ne.symm h1, h2]
  · by_cases hs : v.status = "approved"
    · by_cases hc : Dec.lt v.credit_limit a = true
      · simp [hc, hr, hs]
        exact Ne.symm (by simpa using credit_ne_status (formatMoney v.credit_limit) "approved")
      · simp [hc, hr, hs]
    · by_cases hc : Dec.lt v.credit_limit a = true <;> simp [hc, hr, hs, Ne.symm h1]

/-- C5 counterexample: a concrete approved vendor that is high-risk AND not
fully approved receives only the high-risk warning; the status issue is NOT
emitted, because the source guards it with `elif`. The claim's "receives
both" fails. -/
theorem C5_risk_status_counterexample :
    (vendorHigh.risk_level = "high" ∧ vendorHigh.status ≠ "approved") ∧
    erpValidation erpHigh invZeta =
      .ok (["WARNING: High-risk vendor requires additional approval",
            "No matching open purchase order found"],
           ⟨false, some true, some ("high"), some false, none⟩) ∧
    "Vendor status is 'pending', not fully approved" ∉
      ["WARNING: High-risk vendor requires additional approval",
       "No matching open purchase order found"] :=
  ⟨by decide, rfl, by decide⟩

/-- C5 (amended): for every invoice found in the approved-vendor list (and
not blacklisted, with a parseable amount) on which the Cross-Reference
stage returns, the credit-limit issue appears iff the amount exceeds the
vendor's credit limit, the high-risk warning appears iff `risk_level` is
`"high"`, and the status issue appears iff the vendor is NOT high-risk and
its status differs from `"approved"` — a high-risk vendor with a
non-approved status receives only the warning, not both. -/
theorem C5_vendor_checks_rule (erp : ErpData) (inv : Invoice) (a : Dec)
    (v : Vendor) (issues : List String) (det : ErpDetails)
    (ha : floatOfAmt inv.amount = .ok a)
    (hnb : blacklistHit erp inv = false)
    (hv : findApproved erp inv = some v)
    (hok : erpValidation erp inv = .ok (issues, det)) :
    (("Invoice amount exceeds vendor credit limit of $" ++
        formatMoney v.credit_limit) ∈ issues ↔ Dec.lt v.credit_limit a = true) ∧
    ("WARNING: High-risk vendor requires additional approval" ∈ issues ↔
      v.risk_level = "high") ∧
    (("Vendor status is '" ++ v.status ++ "', not fully approved") ∈ issues ↔
      v.risk_level ≠ "high" ∧ v.status ≠ "approved") := by
  have hrest : erpRest erp inv a = .ok (issues, det) := by
    unfold erpValidation at hok
    rw [ha] at hok
    dsimp only at hok
    rw [hnb] at hok
    simpa using hok
  unfold erpRest at hrest
  rw [hv] at hrest
  dsimp only at hrest
  have hiss : issues = vendorChecks a v ∨
      issues = vendorChecks a v ++ ["No matching open purchase order found"] ∨
      issues = vendorChecks a v ++ ["Invoice date is before purchase order date"] := by
    rcases hP : findPO erp inv a with _ | po <;> rw [hP] at hrest
    · simp only [Except.ok.injEq, Prod.mk.injEq] at hrest
      exact Or.inr (Or.inl hrest.1.symm)
    · dsimp only at hrest
      rcases hpd : parseDate po.created_date with e | pd <;> rw [hpd] at hrest
      · exact absurd hrest (by simp)
      dsimp only at hrest
      rcases hid : parseDate inv.date with e' | invd <;> rw [hid] at hrest
      · exact absurd hrest (by simp)
      dsimp only at hrest
      split at hrest <;> simp only [Except.ok.injEq, Prod.mk.injEq] at hrest
      · exact Or.inr (Or.inr hrest.1.symm)
      · exact Or.inl hrest.1.symm
  have hcred := vendorChecks_mem_credit a v
  have hwarn := vendorChecks_mem_warn a v
  have hstat := vendorChecks_mem_status a v
  have n1 := credit_ne_noPO (formatMoney v.credit_limit)
  have n2 := credit_ne_dateBefore (formatMoney v.credit_limit)
  have n3 := status_ne_noPO v.status
  have n4 := status_ne_dateBefore v.status
  rcases hiss with hiss | hiss | hiss <;> subst hiss <;>
    exact ⟨by simp [List.mem_append, hcred, n1, n2],
           by simp [List.mem_append, hwarn],
           by simp [List.mem_append, hstat, n3, n4]⟩

/-- C5 witness: the high-risk pending vendor instantiates the amended
rule. -/
theorem C5_vendor_checks_rule_witness :
    floatOfAmt invZeta.amount = .ok ⟨500, 1⟩ ∧
    blacklistHit erpHigh invZeta = false ∧
    findApproved erpHigh invZeta = some vendorHigh ∧
    erpValidation erpHigh invZeta =
      .ok (["WARNING: High-risk vendor requires additional approval",
            "No matching open purchase order found"],
           ⟨false, some true, some ("high"), some false, none⟩) ∧
    ((("Invoice amount exceeds vendor credit limit of $" ++
          formatMoney vendorHigh.credit_limit) ∈
        ["WARNING: High-risk vendor requires additional approval",
         "No matching open purchase order found"] ↔
        Dec.lt vendorHigh.credit_limit ⟨500, 1⟩ = true) ∧
     ("WARNING: High-risk vendor requires additional approval" ∈
        ["WARNING: High-risk vendor requires additional approval",
         "No matching open purchase order found"] ↔
        vendorHigh.risk_level = "high") ∧
     (("Vendor status is '" ++ vendorHigh.status ++ "', not fully approved") ∈
        ["WARNING: High-risk vendor requires additional approval",
         "No matching open purchase order found"] ↔
        vendorHigh.risk_level ≠ "high" ∧ vendorHigh.status ≠ "approved")) :=
  ⟨rfl, rfl, rfl, rfl,
   C5_vendor_checks_rule erpHigh invZeta ⟨500, 1⟩ vendorHigh
     ["WARNING: High-risk vendor requires additional approval",
      "No matching open purchase order found"]
     ⟨false, some true, some ("high"), some false, none⟩ rfl rfl rfl rfl⟩

/-- C10 counterexample: an `amount` key holding the empty string is falsy,
but `float('')` raises `ValueError`, so the Field Validator emits
`"Invalid amount format"` — not `"Invoice amount must be positive"` — next
to the missing-field issue. The claim's "missing or empty/falsy ⇒ treated
as 0" fails for the empty string. -/
theorem C10_empty_amount_counterexample :
    Amt.truthy (Amt.str ("")) = false ∧
    basicValidation clockNow invEmptyAmt =
      ["Missing required field: amount", "Invalid amount format"] ∧
    "Invoice amount must be positive" ∉
      ["Missing required field: amount", "Invalid amount format"] :=
  ⟨rfl, rfl, by decide⟩

/-- C10 (amended): for every invoice whose `amount` key is absent, or holds
the numeric value 0, the Field Validator treats the amount as 0 and emits
both `"Missing required field: amount"` and
`"Invoice amount must be positive"` (never `"Invalid amount format"`),
forcing the stage score to 0. An empty-string amount instead yields
`"Invalid amount format"` (see the counterexample). -/
theorem C10_absent_amount (c : Clock) (inv : Invoice)
    (h : inv.amount = .missing ∨ ∃ q, inv.amount = .num q ∧ q.num = 0) :
    "Missing required field: amount" ∈ basicValidation c inv ∧
    "Invoice amount must be positive" ∈ basicValidation c inv ∧
    "Invalid amount format" ∉ basicValidation c inv ∧
    stageScoreBasic (basicValidation c inv) = 0 := by
  have htruthy : inv.amount.truthy = false := by
    rcases h with ham | ⟨q, ham, hq⟩
    · rw [ham]
      rfl
    · rw [ham]
      simp [Amt.truthy, hq]
  have hAI : amountIssues inv = ["Invoice amount must be positive"] := by
    rcases h with ham | ⟨q, ham, hq⟩
    · unfold amountIssues
      rw [ham]
      rfl
    · unfold amountIssues
      rw [ham]
      dsimp only [floatOfAmt]
      have hle : Dec.le q ⟨0, 1⟩ = true := by
        simp [Dec.le, hq]
      rw [hle]
      simp
  have hm1 : "Missing required field: amount" ∈ requiredFieldIssues inv := by
    simp [requiredFieldIssues, List.mem_append, mem_ite_nil, htruthy]
  have hnr : "Invalid amount format" ∉ requiredFieldIssues inv := by
    simp [requiredFieldIssues, List.mem_append, mem_ite_nil]
  have hnd : "Invalid amount format" ∉ dateIssues c inv := by
    unfold dateIssues
    rcases parseDate inv.date with e | d
    · simp
    · dsimp only
      split_ifs <;> simp
  have hmem1 : "Missing required field: amount" ∈ basicValidation c inv := by
    unfold basicValidation
    simp [List.mem_append, hm1]
  refine ⟨hmem1, ?_, ?_, ?_⟩
  · unfold basicValidation
    simp [List.mem_append, hAI]
  · unfold basicValidation
    simp [List.mem_append, hAI, hnr, hnd, mem_ite_nil]
  · have hne : basicValidation c inv ≠ [] := List.ne_nil_of_mem hmem1
    simp [stageScoreBasic, List.length_eq_zero, hne]

/-- C10 witness: the clean invoice with the amount key removed. -/
theorem C10_absent_amount_witness :
    (invNoAmt.amount = .missing ∨ ∃ q, invNoAmt.amount = .num q ∧ q.num = 0) ∧
    ("Missing required field: amount" ∈ basicValidation clockNow invNoAmt ∧
     "Invoice amount must be positive" ∈ basicValidation clockNow invNoAmt ∧
     "Invalid amount format" ∉ basicValidation clockNow invNoAmt ∧
     stageScoreBasic (basicValidation clockNow invNoAmt) = 0) :=
  ⟨Or.inl rfl, C10_absent_amount clockNow invNoAmt (Or.inl rfl)⟩

end InvoiceChain
